import Mathlib

/-!
Shallow embedding of the RCFINDER vehicle-lookup bot (src/bot.py).

The bot gates vehicle lookups behind a per-user credit balance, a blocked
flag, an access tier and an in-memory rate limiter.  We embed the pure
content of each Python function over explicit state:

* the `users` SQLite table becomes a partial map `Int → Option UserRow`;
* the `logs` table becomes a `List LogEntry`;
* the in-memory `_last_lookup_ts` dict becomes `Int → Option ℚ`
  (timestamps are modelled as rationals, `time.time()` values are passed
  in explicitly as a `now` argument);
* the HTTP layer of `fetch_vehicle` is modelled by an `HttpOutcome`
  oracle describing what the single `requests.get` call did, and the
  handler bodies take the outcome as a parameter;
* each handler returns the list of reply texts it sent, the new state,
  and whether the remote fetch was performed.
-/

namespace Bot

/-- A row of the `users` table: `credits INTEGER DEFAULT 0`,
`blocked INTEGER DEFAULT 0`, `access TEXT DEFAULT 'user'`. -/
structure UserRow where
  credits : Int
  blocked : Bool
  access : String
deriving Repr, DecidableEq

/-- The default row inserted by `INSERT OR IGNORE INTO users (user_id)`. -/
def defaultRow : UserRow := ⟨0, false, "user"⟩

/-- The `users` table, keyed by `user_id`. -/
def UsersDB := Int → Option UserRow

/-- A row of the `logs` table (the autoincrement id and timestamp are not
modelled; `success` is stored as the integer `1 if success else 0`). -/
structure LogEntry where
  user_id : Int
  vehicle : String
  success : Int
  error : String
deriving Repr, DecidableEq

/-- The in-memory `_last_lookup_ts` dict: `user_id -> timestamp`. -/
def RateMap := Int → Option ℚ

/-- Python `int()` applied to a float: truncation toward zero. -/
def pyInt (q : ℚ) : Int := if 0 ≤ q then ⌊q⌋ else ⌈q⌉

/-- Python `s.replace(" ", "")`. -/
def removeSpaces (s : String) : String := ⟨s.data.filter (fun c => c ≠ ' ')⟩

/-- The characters Python's `str.strip()` removes. -/
def isPySpace (c : Char) : Bool :=
  c = ' ' || c = '\t' || c = '\n' || c = '\r' || c = '\x0b' || c = '\x0c'

/-- Python `s.strip()`: drop whitespace from both ends. -/
def pyStrip (s : String) : String :=
  ⟨((s.data.dropWhile isPySpace).reverse.dropWhile isPySpace).reverse⟩

/-- Python `s.upper()` (ASCII case mapping). -/
def pyUpper (s : String) : String := ⟨s.data.map Char.toUpper⟩

/-- Python `raw.split(",")` on the character list: split at every comma. -/
def splitComma : List Char → List (List Char)
  | [] => [[]]
  | ',' :: rest => [] :: splitComma rest
  | c :: rest =>
    match splitComma rest with
    | [] => [[c]]
    | g :: gs => (c :: g) :: gs

/-- Rendering of the `wait` value inside the f-string
`f"⏳ Please wait {wait}s before next lookup."`. -/
def optIntStr : Option Int → String
  | some w => toString w
  | none => "None"

/-- Embeds `can_lookup(user_id)`: reads the last-lookup timestamp (`0` when the
user has none), and allows when `now - last >= LOOKUP_COOLDOWN`; otherwise
returns `int(LOOKUP_COOLDOWN - diff + 0.999)` as the retry time. -/
def can_lookup (cooldown : ℚ) (m : RateMap) (user_id : Int) (now : ℚ) :
    Bool × Option Int :=
  let last := (m user_id).getD 0
  let diff := now - last
  if diff ≥ cooldown then (true, none)
  else (false, some (pyInt (cooldown - diff + 999/1000)))

/-- Embeds `mark_lookup(user_id)`: stores `now` as the user's last-lookup time. -/
def mark_lookup (m : RateMap) (user_id : Int) (now : ℚ) : RateMap :=
  fun u => if u = user_id then some now else m u

/-- Embeds `ensure_user(user_id)`: `INSERT OR IGNORE INTO users (user_id) VALUES (?)`;
a fresh row gets the column defaults, an existing row is untouched. -/
def ensure_user (db : UsersDB) (user_id : Int) : UsersDB :=
  match db user_id with
  | some _ => db
  | none => fun u => if u = user_id then some defaultRow else db u

/-- Embeds `get_user_info(user_id)`: returns `(credits, blocked, access)`, with
defaults `(0, False, "user")` when the row is absent. -/
def get_user_info (db : UsersDB) (user_id : Int) : Int × Bool × String :=
  match db user_id with
  | some r => (r.credits, r.blocked, r.access)
  | none => (0, false, "user")

/-- Embeds `deduct_credit(user_id)`: re-reads credits; if the row is absent or
credits `<= 0`, returns `False` without mutating; otherwise runs
`UPDATE users SET credits = credits - 1` and returns `True`.  The result
pairs the returned boolean with the resulting table. -/
def deduct_credit (db : UsersDB) (user_id : Int) : Bool × UsersDB :=
  match db user_id with
  | none => (false, db)
  | some r =>
    if r.credits ≤ 0 then (false, db)
    else (true, fun u => if u = user_id then
                           some { r with credits := r.credits - 1 }
                         else db u)

/-- Embeds `log_search(user_id, vehicle, success, error)`: appends one audit row
with `success` stored as `1 if success else 0`. -/
def log_search (logs : List LogEntry) (user_id : Int) (vehicle : String)
    (success : Bool) (error : String) : List LogEntry :=
  logs ++ [⟨user_id, vehicle, if success then 1 else 0, error⟩]

/-- What the single `requests.get` call inside `fetch_vehicle` did:
either it raised (network error, timeout, or the non-2xx raise from
`raise_for_status`), carrying the exception text, or it returned a
response with a content type, a body, and — when the body was parsed as
JSON — the pretty-printed `json.dumps` text (`none` when `r.json()`
raised). -/
inductive HttpOutcome where
  | failure (msg : String)
  | success (contentType : String) (body : String) (jsonPretty : Option String)
deriving Repr, DecidableEq

/-- Python's `"application/json" in ct` substring test. -/
def containsJson (ct : String) : Bool :=
  (ct.splitOn "application/json").length > 1

/-- Embeds `fetch_vehicle(number)`: total on every outcome; on an exception it
returns the `f"❌ Error fetching vehicle data: {e}"` string, on a JSON
content type the pretty-printed JSON (falling back to `r.text` when
decoding failed), otherwise `r.text`. -/
def fetch_vehicle (o : HttpOutcome) : String :=
  match o with
  | .failure e => "❌ Error fetching vehicle data: " ++ e
  | .success ct body jsonPretty =>
    if containsJson ct then jsonPretty.getD body else body

/-- Embeds `format_vehicle_msg(vehicle, data_text, reveal_mobile)`. -/
def format_vehicle_msg (vehicle data_text : String) (reveal_mobile : Bool) :
    String :=
  let mobile_note :=
    if reveal_mobile then "" else "\n🔒 Mobile: Available for premium users"
  "🚗 *Vehicle Information*\n➤ *Vehicle Number:* " ++ vehicle ++
    "\n\n🔎 *Raw Data:*\n```\n" ++ data_text ++ "\n```\n" ++ mobile_note

/-- Helper for `parse_admins(raw)`, which must split on commas, strip each part, skip empty
parts, `int(p)` each remaining part and silently skip the ones that raise
`ValueError`.  The Python `set` is modelled as a duplicate-free list. -/
def digitRun : List Char → Bool
  | [] => true
  | '_' :: c :: rest => c.isDigit && digitRun rest
  | c :: rest => c.isDigit && digitRun rest

/-- Python `int(p)` on an already-stripped string: an optional sign
followed by a nonempty run of ASCII digits with optional single
underscore separators; `none` models a raised `ValueError`. -/
def pyToInt? (s : String) : Option Int :=
  let cs := s.data
  let sign : Int := match cs with
    | '-' :: _ => -1
    | _ => 1
  let ds := match cs with
    | '+' :: rest => rest
    | '-' :: rest => rest
    | _ => cs
  match ds with
  | [] => none
  | c :: _ =>
    if c.isDigit && digitRun ds then
      some (sign * ((ds.filter (fun a => a ≠ '_')).foldl
        (fun acc a => acc * 10 + (Int.ofNat a.toNat - 48)) 0))
    else none

def parse_admins (raw : String) : List Int :=
  ((splitComma raw.data).map (fun l => (⟨l⟩ : String))).foldl (fun out part =>
    let p := pyStrip part
    if p = "" then out
    else match pyToInt? p with
      | some n => if n ∈ out then out else out ++ [n]
      | none => out) []

/-- The mutable state a lookup-flow handler touches: the `users` table,
the in-memory rate-limit map, and the `logs` table. -/
structure BotState where
  users : UsersDB
  rate : RateMap
  logs : List LogEntry

/-- What one handler invocation did: the reply texts it sent in order,
the resulting state, and whether `fetch_vehicle` was invoked. -/
structure StepOutcome where
  replies : List String
  state : BotState
  fetched : Bool

/-- The tail shared by both lookup handlers once billing is settled:
`mark_lookup`, `log_search(..., True)`, and the formatted reply.  The
"⏳ Fetching vehicle data..." text was already sent before the fetch. -/
def finish_lookup (admins : List Int) (now : ℚ) (user_id : Int)
    (vehicle data : String) (access : String) (st : BotState) : StepOutcome :=
  let reveal_mobile : Bool := user_id ∈ admins ∨ access = "premium"
  { replies := ["⏳ Fetching vehicle data...",
                format_vehicle_msg vehicle data reveal_mobile],
    state := { st with rate := mark_lookup st.rate user_id now,
                       logs := log_search st.logs user_id vehicle true "" },
    fetched := true }

/-- Embeds `search_cmd`, the `/search <vehicle>` handler.  `args` is
`context.args`; `fetchOut` is what the one `requests.get` did when the
flow reached the fetch. -/
def search_cmd (admins : List Int) (cooldown : ℚ) (now : ℚ) (st : BotState)
    (user_id : Int) (args : List String) (fetchOut : HttpOutcome) :
    StepOutcome :=
  match args with
  | [] => { replies := ["Usage: /search KL70C1679"], state := st,
            fetched := false }
  | arg :: _ =>
    let vehicle := pyUpper (removeSpaces arg)
    let r := can_lookup cooldown st.rate user_id now
    if r.1 = false then
      { replies := ["⏳ Please wait " ++ optIntStr r.2 ++
                    "s before next lookup."],
        state := st, fetched := false }
    else
      let info := get_user_info st.users user_id
      if info.2.1 then
        { replies := ["⛔ You are blocked."], state := st, fetched := false }
      else if info.1 ≤ 0 ∧ user_id ∉ admins ∧ info.2.2 ≠ "premium" then
        { replies := ["❌ No credits. Contact admin."], state := st,
          fetched := false }
      else
        let data := fetch_vehicle fetchOut
        if user_id ∉ admins ∧ info.2.2 ≠ "premium" then
          let d := deduct_credit st.users user_id
          if d.1 = false then
            { replies := ["⏳ Fetching vehicle data...",
                          "❌ Failed to deduct a credit."],
              state := { st with users := d.2 }, fetched := true }
          else
            finish_lookup admins now user_id vehicle data info.2.2
              { st with users := d.2 }
        else
          finish_lookup admins now user_id vehicle data info.2.2 st

/-- Embeds `text_handler`, the free-text handler.  When
`context.user_data["await_vehicle"]` is set it runs the interactive
lookup flow on the stripped message text, otherwise it replies with the
generic help line.  The second component of the result is the new
`await_vehicle` flag (always cleared). -/
def text_handler (admins : List Int) (cooldown : ℚ) (now : ℚ) (st : BotState)
    (user_id : Int) (awaitVehicle : Bool) (text : String)
    (fetchOut : HttpOutcome) : StepOutcome × Bool :=
  if awaitVehicle then
    let vehicle := pyUpper (removeSpaces (pyStrip text))
    let r := can_lookup cooldown st.rate user_id now
    if r.1 = false then
      ({ replies := ["⏳ Please wait " ++ optIntStr r.2 ++
                     "s before next lookup."],
         state := st, fetched := false }, false)
    else
      let info := get_user_info st.users user_id
      if info.2.1 then
        ({ replies := ["⛔ You are blocked from using this bot."],
           state := st, fetched := false }, false)
      else if info.1 ≤ 0 ∧ user_id ∉ admins ∧ info.2.2 ≠ "premium" then
        ({ replies := ["❌ No credits. Contact admin to buy credits."],
           state := st, fetched := false }, false)
      else
        let data := fetch_vehicle fetchOut
        if user_id ∉ admins ∧ info.2.2 ≠ "premium" then
          let d := deduct_credit st.users user_id
          if d.1 = false then
            ({ replies := ["⏳ Fetching vehicle data...",
                           "❌ Failed to deduct credit. Contact admin."],
               state := { st with users := d.2 }, fetched := true }, false)
          else
            (finish_lookup admins now user_id vehicle data info.2.2
              { st with users := d.2 }, false)
        else
          (finish_lookup admins now user_id vehicle data info.2.2 st, false)
  else
    ({ replies := ["Send /start to open the menu or /search <VEHICLE_NO>"],
       state := st, fetched := false }, awaitVehicle)

/-- The credits a user currently has, as `get_user_info` reports them
(`0` when the row is absent). -/
def creditsOf (db : UsersDB) (u : Int) : Int := (get_user_info db u).1

/-! ### Helper lemmas -/

lemma deduct_credit_nonneg_step (db : UsersDB) (v u : Int)
    (h : 0 ≤ creditsOf db u) : 0 ≤ creditsOf (deduct_credit db v).2 u := by
  unfold creditsOf get_user_info deduct_credit at *
  cases hdv : db v with
  | none => simpa [hdv] using h
  | some r =>
    by_cases hc : r.credits ≤ 0
    · simpa [hdv, hc] using h
    · by_cases huv : u = v
      · subst huv
        simp only [hdv] at h ⊢
        simp only [hc, if_false]
        simp
        omega
      · simp only [hdv, hc, if_false]
        simpa [huv] using h

lemma ensure_user_of_some (db : UsersDB) (user_id : Int) (r : UserRow)
    (h : db user_id = some r) : ensure_user db user_id = db := by
  simp [ensure_user, h]

lemma pyToInt?_empty : pyToInt? "" = none := rfl

lemma parse_admins_foldl (l : List String) (acc : List Int) (n : Int) :
    n ∈ l.foldl (fun out part =>
      let p := pyStrip part
      if p = "" then out
      else match pyToInt? p with
        | some m => if m ∈ out then out else out ++ [m]
        | none => out) acc ↔
    n ∈ acc ∨ ∃ p ∈ l, pyToInt? (pyStrip p) = some n := by
  induction l generalizing acc with
  | nil => simp
  | cons hd tl ih =>
    simp only [List.foldl_cons, List.mem_cons]
    by_cases hp : pyStrip hd = ""
    · rw [ih]
      simp [hp, pyToInt?_empty]
    · cases hto : pyToInt? (pyStrip hd) with
      | none =>
        rw [if_neg hp, ih]
        constructor
        · rintro (h | ⟨p, hp', h⟩)
          · exact Or.inl h
          · exact Or.inr ⟨p, Or.inr hp', h⟩
        · rintro (h | ⟨p, rfl | hp', h⟩)
          · exact Or.inl h
          · rw [hto] at h
            exact absurd h (by simp)
          · exact Or.inr ⟨p, hp', h⟩
      | some m =>
        by_cases hm : m ∈ acc
        · rw [if_neg hp, show (match some m with
              | some m => if m ∈ acc then acc else acc ++ [m]
              | none => acc) = acc by simp [hm], ih]
          constructor
          · rintro (h | ⟨p, hp', h⟩)
            · exact Or.inl h
            · exact Or.inr ⟨p, Or.inr hp', h⟩
          · rintro (h | ⟨p, rfl | hp', h⟩)
            · exact Or.inl h
            · rw [hto] at h
              obtain rfl : m = n := by injection h
              exact Or.inl hm
            · exact Or.inr ⟨p, hp', h⟩
        · rw [if_neg hp, show (match some m with
              | some m => if m ∈ acc then acc else acc ++ [m]
              | none => acc) = acc ++ [m] by simp [hm], ih]
          constructor
          · rintro (h | ⟨p, hp', h⟩)
            · rcases List.mem_append.1 h with h | h
              · exact Or.inl h
              · exact Or.inr ⟨hd, Or.inl rfl,
                  by rw [hto, List.mem_singleton.1 h]⟩
            · exact Or.inr ⟨p, Or.inr hp', h⟩
          · rintro (h | ⟨p, rfl | hp', h⟩)
            · exact Or.inl (List.mem_append.2 (Or.inl h))
            · rw [hto] at h
              obtain rfl : m = n := by injection h
              exact Or.inl (List.mem_append.2 (Or.inr (List.mem_singleton.2 rfl)))
            · exact Or.inr ⟨p, hp', h⟩

lemma pyInt_of_nonneg (q : ℚ) (h : 0 ≤ q) : pyInt q = ⌊q⌋ := if_pos h

lemma floor_add_999_eq_ceil (r : ℚ)
    (h : Int.fract r = 0 ∨ 1/1000 ≤ Int.fract r) :
    ⌊r + 999/1000⌋ = ⌈r⌉ := by
  have hfl : (⌊r⌋ : ℚ) + Int.fract r = r := Int.floor_add_fract r
  rcases h with h | h
  · have hr : r = (⌊r⌋ : ℚ) := by rw [h, add_zero] at hfl; exact hfl.symm
    rw [hr, Int.ceil_intCast, Int.floor_eq_iff]
    constructor
    · norm_num
    · norm_num
  · have h1 : Int.fract r < 1 := Int.fract_lt_one r
    have hceil : ⌈r⌉ = ⌊r⌋ + 1 := by
      rw [Int.ceil_eq_iff]
      constructor
      · push_cast
        linarith
      · push_cast
        linarith
    rw [hceil, Int.floor_eq_iff]
    constructor
    · push_cast
      linarith
    · push_cast
      linarith

lemma ne_of_head (pre mid suf t : String) (c : Char)
    (hc : pre.data.head? = some c) (ht : t.data.head? ≠ some c) :
    pre ++ mid ++ suf ≠ t := by
  intro e
  apply ht
  rw [← e]
  obtain ⟨rest, hrest⟩ : ∃ rest, pre.data = c :: rest := by
    cases hd : pre.data with
    | nil => rw [hd] at hc; cases hc
    | cons a l =>
      rw [hd] at hc
      injection hc with h
      exact ⟨l, by rw [h]⟩
  show ((pre ++ mid ++ suf).data).head? = some c
  rw [String.data_append, String.data_append, hrest]
  rfl

lemma singleton_ne_of_ne {x y : String} (h : x ≠ y) : [x] ≠ [y] := by
  intro e
  exact h (Option.some.inj (congrArg List.head? e))

lemma mem_log_search {logs : List LogEntry} {uid : Int} {v : String}
    {e : LogEntry} (he : e ∈ log_search logs uid v true "") :
    e ∈ logs ∨ e.success = 1 := by
  have h := he
  simp only [log_search, List.mem_append, List.mem_singleton] at h
  rcases h with h | h
  · exact Or.inl h
  · right
    rw [h]
    simp

/-! ### Claim theorems -/

/-- C3: `deduct_credit` re-reads the stored credits; with an absent row or
non-positive credits it returns `False` and mutates nothing; otherwise it
decrements exactly by 1 (other rows untouched) and returns `True`; and any
sequence of `deduct_credit` calls keeps a non-negative balance
non-negative. -/
theorem deduct_credit_spec (db : UsersDB) (user_id : Int) :
    (db user_id = none → deduct_credit db user_id = (false, db)) ∧
    (∀ r, db user_id = some r → r.credits ≤ 0 →
        deduct_credit db user_id = (false, db)) ∧
    (∀ r, db user_id = some r → 0 < r.credits →
        (deduct_credit db user_id).1 = true ∧
        (deduct_credit db user_id).2 user_id =
          some ⟨r.credits - 1, r.blocked, r.access⟩ ∧
        ∀ v, v ≠ user_id → (deduct_credit db user_id).2 v = db v) ∧
    (∀ uids : List Int, 0 ≤ creditsOf db user_id →
        0 ≤ creditsOf
          (uids.foldl (fun d v => (deduct_credit d v).2) db) user_id) := by
  refine ⟨?_, ?_, ?_, ?_⟩
  · intro h
    simp [deduct_credit, h]
  · intro r hr hc
    simp [deduct_credit, hr, hc]
  · intro r hr hc
    refine ⟨by simp [deduct_credit, hr, not_le.2 hc], ?_, ?_⟩
    · simp [deduct_credit, hr, not_le.2 hc]
    · intro v hv
      simp [deduct_credit, hr, not_le.2 hc, hv]
  · intro uids
    induction uids generalizing db with
    | nil => intro h; simpa using h
    | cons v tl ih =>
      intro h
      simpa using ih _ (deduct_credit_nonneg_step db v user_id h)

/-- Witness for C3 at a concrete table: user 1 holds 2 credits; the
positive-credit branch fires and three further deductions keep the
balance non-negative. -/
theorem deduct_credit_spec_witness :
    ((deduct_credit (fun u => if u = 1 then some ⟨2, false, "user"⟩ else none)
        1).1 = true ∧
      (deduct_credit (fun u => if u = 1 then some ⟨2, false, "user"⟩ else none)
        1).2 1 = some ⟨1, false, "user"⟩ ∧
      ∀ v, v ≠ 1 →
        (deduct_credit (fun u => if u = 1 then some ⟨2, false, "user"⟩ else none)
          1).2 v = (fun u => if u = 1 then some ⟨2, false, "user"⟩ else none) v) ∧
    0 ≤ creditsOf
      ([1, 1, 1].foldl (fun d v => (deduct_credit d v).2)
        (fun u => if u = 1 then some ⟨2, false, "user"⟩ else none)) 1 :=
  ⟨(deduct_credit_spec (fun u => if u = 1 then some ⟨2, false, "user"⟩ else none)
      1).2.2.1 ⟨2, false, "user"⟩ (by simp) (by decide),
   (deduct_credit_spec (fun u => if u = 1 then some ⟨2, false, "user"⟩ else none)
      1).2.2.2 [1, 1, 1] (by decide)⟩

/-- C9: `ensure_user` is idempotent: any number of calls leaves an
existing row exactly as it was, and one call on an absent row inserts the
defaults `credits=0, blocked=false, access="user"`. -/
theorem ensure_user_spec (db : UsersDB) (user_id : Int) :
    (∀ r, db user_id = some r →
      ∀ n, ((fun d => ensure_user d user_id)^[n] db) user_id = some r) ∧
    (db user_id = none →
      ensure_user db user_id user_id = some ⟨0, false, "user"⟩) := by
  constructor
  · intro r hr n
    rw [Function.iterate_fixed (ensure_user_of_some db user_id r hr)]
    exact hr
  · intro h
    simp [ensure_user, h, defaultRow]

/-- Witness for C9: a premium row with 5 credits survives two
`ensure_user` calls untouched, and an absent row gets the defaults. -/
theorem ensure_user_spec_witness :
    ((fun d => ensure_user d 3)^[2]
        (fun u => if u = 3 then some ⟨5, true, "premium"⟩ else none)) 3 =
      some ⟨5, true, "premium"⟩ ∧
    ensure_user (fun _ => none) 4 4 = some ⟨0, false, "user"⟩ :=
  ⟨(ensure_user_spec (fun u => if u = 3 then some ⟨5, true, "premium"⟩ else none)
      3).1 ⟨5, true, "premium"⟩ (by simp) 2,
   (ensure_user_spec (fun _ => none) 4).2 rfl⟩

/-- C4 (amended): with the elapsed time at least the cooldown the check
allows with no retry time; otherwise it denies with
`retry_after = ⌊cooldown - elapsed + 0.999⌋`, which coincides with the
ceiling `⌈cooldown - elapsed⌉` whenever the fractional part of the
remaining time is zero or at least `0.001` (but is one below the ceiling
when that fractional part lies strictly between `0` and `0.001`). -/
theorem can_lookup_spec (cooldown : ℚ) (m : RateMap) (user_id : Int)
    (now : ℚ) :
    (now - ((m user_id).getD 0 : ℚ) ≥ cooldown →
      can_lookup cooldown m user_id now = (true, none)) ∧
    (now - ((m user_id).getD 0 : ℚ) < cooldown →
      can_lookup cooldown m user_id now =
        (false,
         some ⌊cooldown - (now - ((m user_id).getD 0 : ℚ)) + 999/1000⌋) ∧
      ((Int.fract (cooldown - (now - ((m user_id).getD 0 : ℚ))) = 0 ∨
          1/1000 ≤ Int.fract (cooldown - (now - ((m user_id).getD 0 : ℚ)))) →
        ⌊cooldown - (now - ((m user_id).getD 0 : ℚ)) + 999/1000⌋ =
          ⌈cooldown - (now - ((m user_id).getD 0 : ℚ))⌉)) := by
  constructor
  · intro h
    simp [can_lookup, h]
  · intro h
    refine ⟨?_, floor_add_999_eq_ceil _⟩
    have h' : ¬ (now - ((m user_id).getD 0 : ℚ) ≥ cooldown) := not_le.2 h
    simp only [can_lookup, h', if_false, Prod.mk.injEq, true_and]
    rw [pyInt_of_nonneg _ (by linarith)]

/-- Witness for C4 at cooldown 2 with an empty rate map: at time 5 the
check allows, and at remaining time `3/2` the stored retry value agrees
with the ceiling. -/
theorem can_lookup_spec_witness :
    can_lookup 2 (fun _ => none) 9 5 = (true, none) ∧
    (can_lookup 2 (fun _ => none) 9 (1/2) =
      (false,
       some ⌊(2 : ℚ) - (1/2 - (((fun _ => none : RateMap) 9).getD 0 : ℚ)) +
          999/1000⌋) ∧
     ((Int.fract ((2 : ℚ) -
          (1/2 - (((fun _ => none : RateMap) 9).getD 0 : ℚ))) = 0 ∨
        1/1000 ≤ Int.fract ((2 : ℚ) -
          (1/2 - (((fun _ => none : RateMap) 9).getD 0 : ℚ)))) →
      ⌊(2 : ℚ) - (1/2 - (((fun _ => none : RateMap) 9).getD 0 : ℚ)) +
          999/1000⌋ =
        ⌈(2 : ℚ) - (1/2 - (((fun _ => none : RateMap) 9).getD 0 : ℚ))⌉)) :=
  ⟨(can_lookup_spec 2 (fun _ => none) 9 5).1 (by norm_num),
   (can_lookup_spec 2 (fun _ => none) 9 (1/2)).2 (by norm_num)⟩

/-- Counterexample for C4 as stated: with cooldown 2 and elapsed time
`1999/2000`, the remaining time is `2001/2000` whose ceiling is `2`, yet
the code answers `retry_after = 1`. -/
theorem can_lookup_ceil_cex :
    can_lookup 2 (fun _ => none) 0 (1999/2000) = (false, some 1) ∧
    ⌈(2 : ℚ) - ((1999 : ℚ)/2000 - 0)⌉ = 2 := by
  constructor
  · norm_num [can_lookup, pyInt]
  · rw [show (2 : ℚ) - ((1999 : ℚ)/2000 - 0) = 2001/2000 by norm_num,
        Int.ceil_eq_iff]
    norm_num

/-- C8: two checks inside the same cooldown window, with no intervening
`mark_lookup`, both deny, and the later one's retry time is no larger;
`can_lookup` is a pure function of the map, so the check itself never
mutates the rate-limit state. -/
theorem can_lookup_twice_mono (cooldown : ℚ) (m : RateMap) (user_id : Int)
    (t1 t2 : ℚ) (h12 : t1 ≤ t2)
    (h2 : t2 - ((m user_id).getD 0 : ℚ) < cooldown) :
    ∃ r1 r2 : Int,
      can_lookup cooldown m user_id t1 = (false, some r1) ∧
      can_lookup cooldown m user_id t2 = (false, some r2) ∧
      r2 ≤ r1 := by
  have h1 : t1 - ((m user_id).getD 0 : ℚ) < cooldown := by linarith
  refine ⟨pyInt (cooldown - (t1 - ((m user_id).getD 0 : ℚ)) + 999/1000),
          pyInt (cooldown - (t2 - ((m user_id).getD 0 : ℚ)) + 999/1000),
          ?_, ?_, ?_⟩
  · simp [can_lookup, not_le.2 h1]
  · simp [can_lookup, not_le.2 h2]
  · rw [pyInt_of_nonneg _ (by linarith), pyInt_of_nonneg _ (by linarith)]
    exact Int.floor_mono (by linarith)

/-- Witness for C8: cooldown 2, empty map, checks at times 0 and 1/2. -/
theorem can_lookup_twice_mono_witness :
    ∃ r1 r2 : Int,
      can_lookup 2 (fun _ => none) 9 0 = (false, some r1) ∧
      can_lookup 2 (fun _ => none) 9 (1/2) = (false, some r2) ∧
      r2 ≤ r1 :=
  can_lookup_twice_mono 2 (fun _ => none) 9 0 (1/2) (by norm_num)
    (by norm_num)

/-- C7: `fetch_vehicle` is total over every outcome of the one HTTP call;
an exception (network error, timeout, or the non-2xx raise) becomes the
human-readable error string, and whatever string comes back flows through
the very same reply path as a successful payload: past the guards the
handler replies with `format_vehicle_msg` applied to the fetch result,
whatever outcome produced it. -/
theorem fetch_vehicle_spec :
    (∀ e, fetch_vehicle (.failure e) =
        "❌ Error fetching vehicle data: " ++ e) ∧
    (∀ (admins : List Int) (cooldown now : ℚ) (st : BotState)
       (user_id : Int) (arg : String) (rest : List String)
       (out : HttpOutcome),
      (can_lookup cooldown st.rate user_id now).1 = true →
      (get_user_info st.users user_id).2.1 = false →
      user_id ∈ admins →
      (search_cmd admins cooldown now st user_id (arg :: rest) out).replies =
        ["⏳ Fetching vehicle data...",
         format_vehicle_msg (pyUpper (removeSpaces arg))
           (fetch_vehicle out) true]) := by
  constructor
  · intro e
    rfl
  · intro admins cooldown now st user_id arg rest out h1 h2 h3
    simp [search_cmd, h1, h2, h3, finish_lookup]

/-- Witness for C7: an admin caller with a clear rate map and an
unblocked row; the fetch outcome is a failure, and its error text is
forwarded inside the formatted reply. -/
theorem fetch_vehicle_spec_witness :
    (search_cmd [1] 2 10
        ⟨fun u => if u = 1 then some ⟨0, false, "user"⟩ else none,
         fun _ => none, []⟩ 1 ["KL70C1679"]
        (.failure "timeout")).replies =
      ["⏳ Fetching vehicle data...",
       format_vehicle_msg (pyUpper (removeSpaces "KL70C1679"))
         (fetch_vehicle (.failure "timeout")) true] :=
  fetch_vehicle_spec.2 [1] 2 10
    ⟨fun u => if u = 1 then some ⟨0, false, "user"⟩ else none,
     fun _ => none, []⟩ 1 "KL70C1679" [] (.failure "timeout")
    (by norm_num [can_lookup]) (by simp [get_user_info]) (by decide)

/-- C2 (amended): admin and premium callers bypass only the credit gate;
the blocked guard applies to them like to any caller — once the rate
check passes, a stored `blocked = true` rejects the lookup with the
blocked message, fetches nothing and leaves the state unchanged. -/
theorem blocked_guard_spec :
    ∀ (admins : List Int) (cooldown now : ℚ) (st : BotState) (user_id : Int)
      (arg : String) (rest : List String) (text : String)
      (out : HttpOutcome),
      user_id ∈ admins ∨ (get_user_info st.users user_id).2.2 = "premium" →
      (can_lookup cooldown st.rate user_id now).1 = true →
      (get_user_info st.users user_id).2.1 = true →
      (search_cmd admins cooldown now st user_id (arg :: rest) out).replies =
          ["⛔ You are blocked."] ∧
        (search_cmd admins cooldown now st user_id (arg :: rest) out).state =
          st ∧
        (search_cmd admins cooldown now st user_id (arg :: rest) out).fetched =
          false ∧
        (text_handler admins cooldown now st user_id true text out).1.replies =
          ["⛔ You are blocked from using this bot."] ∧
        (text_handler admins cooldown now st user_id true text out).1.state =
          st ∧
        (text_handler admins cooldown now st user_id true text out).1.fetched =
          false := by
  intro admins cooldown now st user_id arg rest text out _ hr hb
  refine ⟨?_, ?_, ?_, ?_, ?_, ?_⟩ <;>
    simp [search_cmd, text_handler, hr, hb]

/-- Witness for C2's amended statement: admin 7, blocked row, rate check
clear. -/
theorem blocked_guard_spec_witness :
    (search_cmd [7] 2 10
        ⟨fun u => if u = 7 then some ⟨100, true, "admin"⟩ else none,
         fun _ => none, []⟩ 7 ["KL70C1679"] (.failure "down")).replies =
        ["⛔ You are blocked."] ∧
      (search_cmd [7] 2 10
        ⟨fun u => if u = 7 then some ⟨100, true, "admin"⟩ else none,
         fun _ => none, []⟩ 7 ["KL70C1679"] (.failure "down")).state =
        ⟨fun u => if u = 7 then some ⟨100, true, "admin"⟩ else none,
         fun _ => none, []⟩ ∧
      (search_cmd [7] 2 10
        ⟨fun u => if u = 7 then some ⟨100, true, "admin"⟩ else none,
         fun _ => none, []⟩ 7 ["KL70C1679"] (.failure "down")).fetched =
        false ∧
      (text_handler [7] 2 10
        ⟨fun u => if u = 7 then some ⟨100, true, "admin"⟩ else none,
         fun _ => none, []⟩ 7 true "KL70C1679" (.failure "down")).1.replies =
        ["⛔ You are blocked from using this bot."] ∧
      (text_handler [7] 2 10
        ⟨fun u => if u = 7 then some ⟨100, true, "admin"⟩ else none,
         fun _ => none, []⟩ 7 true "KL70C1679" (.failure "down")).1.state =
        ⟨fun u => if u = 7 then some ⟨100, true, "admin"⟩ else none,
         fun _ => none, []⟩ ∧
      (text_handler [7] 2 10
        ⟨fun u => if u = 7 then some ⟨100, true, "admin"⟩ else none,
         fun _ => none, []⟩ 7 true "KL70C1679" (.failure "down")).1.fetched =
        false :=
  blocked_guard_spec [7] 2 10
    ⟨fun u => if u = 7 then some ⟨100, true, "admin"⟩ else none,
     fun _ => none, []⟩ 7 "KL70C1679" [] "KL70C1679" (.failure "down")
    (Or.inl (by decide)) (by norm_num [can_lookup])
    (by simp [get_user_info])

/-- Counterexample for C2 as stated: admin 7 (a member of the configured
admin list) with `blocked = true` is rejected at the blocked guard — the
lookup does not proceed past it and no fetch happens. -/
theorem blocked_admin_cex :
    (7 : Int) ∈ ([7] : List Int) ∧
    (search_cmd [7] 2 10
        ⟨fun u => if u = 7 then some ⟨100, true, "admin"⟩ else none,
         fun _ => none, []⟩ 7 ["KL70C1679"] (.failure "down")).replies =
      ["⛔ You are blocked."] ∧
    (search_cmd [7] 2 10
        ⟨fun u => if u = 7 then some ⟨100, true, "admin"⟩ else none,
         fun _ => none, []⟩ 7 ["KL70C1679"] (.failure "down")).fetched =
      false := by
  refine ⟨by decide, ?_, ?_⟩ <;>
    norm_num [search_cmd, can_lookup, get_user_info]

/-- C1: a caller who is in the admin list or whose stored access tier is
`"premium"` is never charged a credit (the `users` table is left exactly
as it was) and is never rejected at the credit gate, in both the
`/search` command and the interactive awaiting-vehicle flow, whatever
the stored credits value. -/
theorem admin_premium_bypass :
    ∀ (admins : List Int) (cooldown now : ℚ) (st : BotState) (user_id : Int)
      (args : List String) (awaitV : Bool) (text : String)
      (out : HttpOutcome),
      user_id ∈ admins ∨ (get_user_info st.users user_id).2.2 = "premium" →
      (search_cmd admins cooldown now st user_id args out).state.users =
          st.users ∧
      (search_cmd admins cooldown now st user_id args out).replies ≠
          ["❌ No credits. Contact admin."] ∧
      (text_handler admins cooldown now st user_id awaitV text
          out).1.state.users = st.users ∧
      (text_handler admins cooldown now st user_id awaitV text
          out).1.replies ≠
          ["❌ No credits. Contact admin to buy credits."] := by
  intro admins cooldown now st user_id args awaitV text out h
  have hcred : ¬((get_user_info st.users user_id).1 ≤ 0 ∧
      user_id ∉ admins ∧
      (get_user_info st.users user_id).2.2 ≠ "premium") := by
    rcases h with h | h
    · rintro ⟨-, hna, -⟩
      exact hna h
    · rintro ⟨-, -, hp⟩
      exact hp h
  have hbill : ¬(user_id ∉ admins ∧
      (get_user_info st.users user_id).2.2 ≠ "premium") := by
    rcases h with h | h
    · rintro ⟨hna, -⟩
      exact hna h
    · rintro ⟨-, hp⟩
      exact hp h
  refine ⟨?_, ?_, ?_, ?_⟩
  · cases args with
    | nil => rfl
    | cons arg rest =>
      simp only [search_cmd]
      split
      · rfl
      · split
        · rfl
        · rfl
  · cases args with
    | nil =>
      simp only [search_cmd]
      exact singleton_ne_of_ne (by decide)
    | cons arg rest =>
      simp only [search_cmd]
      split
      · exact singleton_ne_of_ne
          (ne_of_head _ _ _ _ '⏳' (by decide) (by decide))
      · split
        · exact singleton_ne_of_ne (by decide)
        · simp [finish_lookup]
  · simp only [text_handler]
    split
    · split
      · rfl
      · split
        · rfl
        · rfl
    · rfl
  · simp only [text_handler]
    split
    · split
      · exact singleton_ne_of_ne
          (ne_of_head _ _ _ _ '⏳' (by decide) (by decide))
      · split
        · exact singleton_ne_of_ne (by decide)
        · simp [finish_lookup]
    · exact singleton_ne_of_ne (by decide)

/-- Witness for C1: admin 1 with a zero-credit row runs both flows; the
table is untouched and no credit-gate rejection appears. -/
theorem admin_premium_bypass_witness :
    (search_cmd [1] 2 10
        ⟨fun u => if u = 1 then some ⟨0, false, "user"⟩ else none,
         fun _ => none, []⟩ 1 ["KL70C1679"]
        (.failure "down")).state.users =
      (fun u => if u = 1 then some ⟨0, false, "user"⟩ else none) ∧
    (search_cmd [1] 2 10
        ⟨fun u => if u = 1 then some ⟨0, false, "user"⟩ else none,
         fun _ => none, []⟩ 1 ["KL70C1679"] (.failure "down")).replies ≠
      ["❌ No credits. Contact admin."] ∧
    (text_handler [1] 2 10
        ⟨fun u => if u = 1 then some ⟨0, false, "user"⟩ else none,
         fun _ => none, []⟩ 1 true "KL70C1679"
        (.failure "down")).1.state.users =
      (fun u => if u = 1 then some ⟨0, false, "user"⟩ else none) ∧
    (text_handler [1] 2 10
        ⟨fun u => if u = 1 then some ⟨0, false, "user"⟩ else none,
         fun _ => none, []⟩ 1 true "KL70C1679" (.failure "down")).1.replies ≠
      ["❌ No credits. Contact admin to buy credits."] :=
  admin_premium_bypass [1] 2 10
    ⟨fun u => if u = 1 then some ⟨0, false, "user"⟩ else none,
     fun _ => none, []⟩ 1 ["KL70C1679"] true "KL70C1679" (.failure "down")
    (Or.inl (by decide))

/-- C5: every audit row the lookup flow appends is marked `success = 1`,
for every fetch outcome (a failure outcome included); neither handler
ever appends a `success = 0` row. -/
theorem logs_success_spec :
    ∀ (admins : List Int) (cooldown now : ℚ) (st : BotState) (user_id : Int)
      (args : List String) (awaitV : Bool) (text : String)
      (out : HttpOutcome),
      (∀ e ∈ (search_cmd admins cooldown now st user_id args out).state.logs,
        e ∈ st.logs ∨ e.success = 1) ∧
      (∀ e ∈ (text_handler admins cooldown now st user_id awaitV text
          out).1.state.logs,
        e ∈ st.logs ∨ e.success = 1) := by
  intro admins cooldown now st user_id args awaitV text out
  constructor
  · cases args with
    | nil => exact fun e he => Or.inl he
    | cons arg rest =>
      simp only [search_cmd]
      split
      · exact fun e he => Or.inl he
      · split
        · exact fun e he => Or.inl he
        · split
          · exact fun e he => Or.inl he
          · split
            · split
              · exact fun e he => Or.inl he
              · exact fun e he =>
                  mem_log_search (by simpa [finish_lookup] using he)
            · exact fun e he =>
                mem_log_search (by simpa [finish_lookup] using he)
  · simp only [text_handler]
    split
    · split
      · exact fun e he => Or.inl he
      · split
        · exact fun e he => Or.inl he
        · split
          · exact fun e he => Or.inl he
          · split
            · split
              · exact fun e he => Or.inl he
              · exact fun e he =>
                  mem_log_search (by simpa [finish_lookup] using he)
            · exact fun e he =>
                mem_log_search (by simpa [finish_lookup] using he)
    · exact fun e he => Or.inl he

/-- Witness for C5: admin 1's lookup with a failed fetch appends exactly
one row, and that row carries `success = 1`. -/
theorem logs_success_spec_witness :
    (⟨1, "KL70C1679", 1, ""⟩ : LogEntry) ∈
        (⟨fun u => if u = 1 then some ⟨0, false, "user"⟩ else none,
          fun _ => none, []⟩ : BotState).logs ∨
      (⟨1, "KL70C1679", 1, ""⟩ : LogEntry).success = 1 :=
  (logs_success_spec [1] 2 10
      ⟨fun u => if u = 1 then some ⟨0, false, "user"⟩ else none,
       fun _ => none, []⟩ 1 ["KL70C1679"] true "KL70C1679"
      (.failure "down")).1 ⟨1, "KL70C1679", 1, ""⟩
    (by
      norm_num [search_cmd, can_lookup, get_user_info, finish_lookup,
        log_search, format_vehicle_msg, pyUpper, removeSpaces]
      decide)

/-- C6: every guard rejection (rate, blocked, or credit) short-circuits
with that guard's message, leaving the whole state untouched — no fetch,
no deduction, no audit row, no rate-limit update — in both flows; and in
particular a fresh user 42 with 0 credits running `/search ABC123` is
told there are no credits while their credits stay 0. -/
theorem guard_short_circuit :
    ∀ (admins : List Int) (cooldown now : ℚ) (st : BotState) (user_id : Int)
      (arg : String) (rest : List String) (text : String)
      (out : HttpOutcome),
      ((can_lookup cooldown st.rate user_id now).1 = false →
        search_cmd admins cooldown now st user_id (arg :: rest) out =
          ⟨["⏳ Please wait " ++
              optIntStr (can_lookup cooldown st.rate user_id now).2 ++
              "s before next lookup."], st, false⟩ ∧
        (text_handler admins cooldown now st user_id true text out).1 =
          ⟨["⏳ Please wait " ++
              optIntStr (can_lookup cooldown st.rate user_id now).2 ++
              "s before next lookup."], st, false⟩) ∧
      ((can_lookup cooldown st.rate user_id now).1 = true →
        (get_user_info st.users user_id).2.1 = true →
        search_cmd admins cooldown now st user_id (arg :: rest) out =
          ⟨["⛔ You are blocked."], st, false⟩ ∧
        (text_handler admins cooldown now st user_id true text out).1 =
          ⟨["⛔ You are blocked from using this bot."], st, false⟩) ∧
      ((can_lookup cooldown st.rate user_id now).1 = true →
        (get_user_info st.users user_id).2.1 = false →
        (get_user_info st.users user_id).1 ≤ 0 →
        user_id ∉ admins →
        (get_user_info st.users user_id).2.2 ≠ "premium" →
        search_cmd admins cooldown now st user_id (arg :: rest) out =
          ⟨["❌ No credits. Contact admin."], st, false⟩ ∧
        (text_handler admins cooldown now st user_id true text out).1 =
          ⟨["❌ No credits. Contact admin to buy credits."], st, false⟩) ∧
      ((search_cmd [] 2 10
          ⟨fun u => if u = 42 then some ⟨0, false, "user"⟩ else none,
           fun _ => none, []⟩ 42 ["ABC123"] (.failure "x")).replies =
        ["❌ No credits. Contact admin."] ∧
       creditsOf (search_cmd [] 2 10
          ⟨fun u => if u = 42 then some ⟨0, false, "user"⟩ else none,
           fun _ => none, []⟩ 42 ["ABC123"] (.failure "x")).state.users 42 =
        0) := by
  intro admins cooldown now st user_id arg rest text out
  refine ⟨?_, ?_, ?_, ?_, ?_⟩
  · intro h
    constructor <;> simp [search_cmd, text_handler, h]
  · intro h hb
    constructor <;> simp [search_cmd, text_handler, h, hb]
  · intro h hb hc hna hp
    constructor <;> simp [search_cmd, text_handler, h, hb, hc, hna, hp]
  · norm_num [search_cmd, can_lookup, get_user_info]
    decide
  · norm_num [search_cmd, can_lookup, get_user_info, creditsOf]
    decide

/-- Witness for C6's three guard implications, each at its own concrete
input: user 8 again within the cooldown, blocked user 11, and a fresh
zero-credit user 12. -/
theorem guard_short_circuit_witness :
    search_cmd [] 2 10
        ⟨fun _ => none, fun u => if u = 8 then some 10 else none, []⟩ 8
        ["ABC123"] (.failure "x") =
      ⟨["⏳ Please wait " ++
          optIntStr (can_lookup 2
            (fun u => if u = 8 then some 10 else none) 8 10).2 ++
          "s before next lookup."],
        ⟨fun _ => none, fun u => if u = 8 then some 10 else none, []⟩,
        false⟩ ∧
    search_cmd [] 2 10
        ⟨fun u => if u = 11 then some ⟨3, true, "user"⟩ else none,
         fun _ => none, []⟩ 11 ["ABC123"] (.failure "x") =
      ⟨["⛔ You are blocked."],
        ⟨fun u => if u = 11 then some ⟨3, true, "user"⟩ else none,
         fun _ => none, []⟩,
        false⟩ ∧
    search_cmd [] 2 10
        ⟨fun u => if u = 12 then some ⟨0, false, "user"⟩ else none,
         fun _ => none, []⟩ 12 ["ABC123"] (.failure "x") =
      ⟨["❌ No credits. Contact admin."],
        ⟨fun u => if u = 12 then some ⟨0, false, "user"⟩ else none,
         fun _ => none, []⟩,
        false⟩ :=
  ⟨((guard_short_circuit [] 2 10
      ⟨fun _ => none, fun u => if u = 8 then some 10 else none, []⟩ 8
      "ABC123" [] "ABC123" (.failure "x")).1
      (by norm_num [can_lookup])).1,
   ((guard_short_circuit [] 2 10
      ⟨fun u => if u = 11 then some ⟨3, true, "user"⟩ else none,
       fun _ => none, []⟩ 11 "ABC123" [] "ABC123" (.failure "x")).2.1
      (by norm_num [can_lookup]) (by simp [get_user_info])).1,
   ((guard_short_circuit [] 2 10
      ⟨fun u => if u = 12 then some ⟨0, false, "user"⟩ else none,
       fun _ => none, []⟩ 12 "ABC123" [] "ABC123" (.failure "x")).2.2.1
      (by norm_num [can_lookup]) (by simp [get_user_info])
      (by simp [get_user_info]) (by decide)
      (by simp [get_user_info])).1⟩

/-- C10: the parsed admin set holds exactly the integers of the
comma-separated parts that, once stripped, parse as Python integers;
empty and unparsable parts are silently skipped (the parser is total, so
a mistyped entry never aborts startup, it just drops that admin). -/
theorem parse_admins_spec (raw : String) (n : Int) :
    n ∈ parse_admins raw ↔
      ∃ l ∈ splitComma raw.data, pyToInt? (pyStrip ⟨l⟩) = some n := by
  unfold parse_admins
  rw [parse_admins_foldl]
  simp

end Bot
